import Mathlib

/-!
Shallow embedding of the golgi convolution layer (conv.go) and the top-level
layer helpers (Layer/ConsOpt/Redefine). The external gorgonia engine is
modelled abstractly: a graph node carries only its graph id, dtype, shape and
name, and the fallible engine primitives (conv2d, dropout) are parameters of
the forward pass. Go integers are modelled as Int with Go's truncating
division (Int.tdiv); Go's nil pointers and nil interface values are modelled
as Option; a Go (value, error) pair becomes an explicit pair with Option
String for the error, or Except when nil-iff-error holds.
-/

/-- Model of a gorgonia graph node handle: the graph it belongs to, its
element dtype, its tensor shape and its name. These are the only attributes
the code under verification reads. -/
structure Node where
  graph : Nat
  dtype : Nat
  shape : List Int
  name : String
deriving Inhabited, DecidableEq, Repr

/-- Model of an ActivationFunction: a fallible map on graph nodes
(Go: func(*G.Node) (*G.Node, error)). -/
def ActivationFunction := Node → Except String Node

/-- Model of the external gorgonia.Rectify activation function. Its behaviour
is external to this repository; only its identity matters to the claims, so it
is modelled as the successful identity map. -/
def Rectify : ActivationFunction := fun n => Except.ok n

/-- The Conv layer struct from conv.go. The weight node `w` is a nil-able
pointer, hence Option. `act` is a nil-able function value, hence Option.
`dropout` is a nil-able *float64 whose value is never computed on here. -/
structure Conv where
  w : Option Node
  name : String
  size : List Int
  kernelShape : List Int
  pad : List Int
  stride : List Int
  dilation : List Int
  dropout : Option Float
  act : Option ActivationFunction
  initialized : Bool
  computeFLOPs : Bool
  flops : Int

/-- Model of ConsOpt (Go: func(Layer) (Layer, error)), specialised to the one
layer type in the sources. The returned layer may be nil (None) and the error
may be set independently, exactly as a Go pair return. -/
def ConsOpt := Conv → Option Conv × Option String

/-- Model of gorgonia.Input: it can surrender a node handle (possibly nil) and
may carry an error that gorgonia.CheckOne reports. -/
structure Input where
  node : Option Node
  err : Option String

/-- The external gorgonia primitives consumed by Conv.Fwd, kept abstract: any
behaviour of conv2d and dropout is allowed. -/
structure Engine where
  conv2d : Node → Node → List Int → List Int → List Int → List Int → Except String Node
  dropout : Node → Float → Except String Node

/-- Model of gorgonia.NewTensor as used in Conv.Init: it creates a node in
graph `g` with dtype `dt`, the given shape and the given name. -/
def newTensor (g : Nat) (dt : Nat) (shape : List Int) (name : String) : Node :=
  { graph := g, dtype := dt, shape := shape, name := name }

/-- The weight node Conv.Init allocates for layer `l` from input node `x`:
shape (size[0], size[1], kernelShape[0], kernelShape[1]), bound to the graph
and dtype of `x`, named `name + "_w"`. The Go indexings l.size[0], l.size[1],
l.kernelShape[0], l.kernelShape[1] panic with index-out-of-range when either
slice has fewer than two elements (size is nil in the NewConv defaults);
the panic is the None case. -/
def convNewWeight (l : Conv) (x : Node) : Option Node :=
  match l.size, l.kernelShape with
  | s0 :: s1 :: _, k0 :: k1 :: _ =>
    some (newTensor x.graph x.dtype [s0, s1, k0, k1] (l.name ++ "_w"))
  | _, _ => none

/-- Conv.Init from conv.go: reads only xs[0], allocates a fresh weight node
and unconditionally sets the initialized flag; its error result is always nil.
The Go code can panic rather than return: on an empty argument list (xs[0])
or on a size or kernelShape slice shorter than two (inside the NewTensor
shape arguments); a panic is the None case. -/
def Conv.Init (l : Conv) (xs : List Node) : Option (Conv × Option String) :=
  match xs with
  | [] => none
  | x :: _ =>
    match convNewWeight l x with
    | none => none
    | some wNew => some ({ l with w := some wNew, initialized := true }, none)

/-- Conv.doComputeFLOPs from conv.go, verbatim: note that it indexes the
input shape at positions 1 and 2 and the weight shape at 0..3. Go's
truncating integer division is Int.tdiv. The weight pointer dereference
l.w.Shape() is modelled with a default node when w is nil (the code only
reaches this call after initialization). -/
def Conv.doComputeFLOPs (l : Conv) (input : List Int) : Int :=
  let shp := (l.w.getD default).shape
  let n := shp.getD 1 0 * shp.getD 2 0 * shp.getD 3 0
  let flopsPerInstance := n + 1
  let rows := ((input.getD 1 0 - shp.getD 2 0 + 2 * l.pad.getD 0 0).tdiv (l.stride.getD 0 0)) + 1
  let instancesPerFilter :=
    rows * (((input.getD 2 0 - shp.getD 3 0 + 2 * l.pad.getD 1 0).tdiv (l.stride.getD 1 0)) + 1)
  let flopsPerFilter := instancesPerFilter * flopsPerInstance
  let retVal := flopsPerFilter * shp.getD 0 0
  if l.act.isSome then retVal + shp.getD 0 0 * instancesPerFilter else retVal

/-- The part of Conv.Fwd after input checking and lazy initialization:
conv2d, activation, optional dropout, optional FLOPs caching. Calling a nil
activation function would fault in Go; that fault is modelled as an error
result. Returns the updated layer state and the forward result. -/
def convForward (E : Engine) (l1 : Conv) (xN : Node) : Conv × Except String Node :=
  match E.conv2d xN (l1.w.getD default) l1.kernelShape l1.pad l1.stride l1.dilation with
  | Except.error e => (l1, Except.error ("applying conv2d: " ++ e))
  | Except.ok c =>
    match (match l1.act with
           | some f => f c
           | none => Except.error ("invalid memory address or nil pointer dereference")) with
    | Except.error e => (l1, Except.error ("applying activation function: " ++ e))
    | Except.ok r0 =>
      match l1.dropout with
      | some p =>
        match E.dropout r0 p with
        | Except.error e => (l1, Except.error ("applying dropout: " ++ e))
        | Except.ok r1 =>
          if l1.computeFLOPs then
            ({ l1 with flops := Conv.doComputeFLOPs l1 xN.shape }, Except.ok r1)
          else (l1, Except.ok r1)
      | none =>
        if l1.computeFLOPs then
          ({ l1 with flops := Conv.doComputeFLOPs l1 xN.shape }, Except.ok r0)
        else (l1, Except.ok r0)

/-- Conv.Fwd from conv.go: check the input, lazily initialize when the
initialized flag is unset (a panic inside Init, as with the default empty
size, propagates: the None case), then run the forward computation. The state
of the layer after the call is returned alongside the gorgonia.Result. -/
def Conv.Fwd (E : Engine) (l : Conv) (x : Input) :
    Option (Conv × Except String Node) :=
  match x.err with
  | some e => some (l, Except.error ("checking input: " ++ e))
  | none =>
    let xN := x.node.getD default
    if l.initialized then some (convForward E l xN)
    else
      match Conv.Init l [xN] with
      | none => none
      | some (l1, some e) =>
        some (l1, Except.error ("Initializing a previously uninitialized Conv layer: " ++ e))
      | some (l1, none) => some (convForward E l1 xN)

/-- Conv.Shape from conv.go returns l.w.Shape(): an unconditional dereference
of the weight pointer. A nil weight makes the Go code fault; the fault is the
None case here, the defined behaviour is the Some case. -/
def Conv.Shape (l : Conv) : Option (List Int) :=
  l.w.map Node.shape

/-- The zero-value Conv with the defaults NewConv installs: Rectify
activation, 5x5 kernel, pad (1,1), stride (1,1), dilation (1,1); all other
fields are Go zero values. -/
def convDefaults : Conv :=
  { w := none
    name := ""
    size := []
    kernelShape := [5, 5]
    pad := [1, 1]
    stride := [1, 1]
    dilation := [1, 1]
    dropout := none
    act := some Rectify
    initialized := false
    computeFLOPs := false
    flops := 0 }

/-- The option loop of NewConv: each option is applied to the current layer;
an error aborts with nil layer; a nil returned layer fails the *Conv type
assertion and aborts with an error. -/
def newConvLoop (l : Conv) : List ConsOpt → Except String Conv
  | [] => Except.ok l
  | opt :: rest =>
    match opt l with
    | (_, some e) => Except.error e
    | (none, none) => Except.error ("Construction Option returned a non Conv.")
    | (some l2, none) => newConvLoop l2 rest

/-- NewConv from conv.go: start from the defaults and run the options. -/
def NewConv (opts : List ConsOpt) : Except String Conv :=
  newConvLoop convDefaults opts

/-- The errors ConsConv can return. The bad-shape error carries the offending
shape because the Go error formats the actual shape into its message. -/
inductive ConsConvError where
  | nilNode : ConsConvError
  | badShape : List Int → ConsConvError
  | fromNew : String → ConsConvError
deriving DecidableEq, Repr

/-- ConsConv from conv.go: fail on a nil node handle; fail, reporting the
actual shape, unless the input shape has exactly 4 dimensions (the disjunct
`dims == 0` is kept verbatim although it is subsumed); then build the layer
with NewConv and initialize it against the input node. A panic inside Init
(size not set by any option, as with an empty option list) propagates: the
outer None case. -/
def ConsConv (i : Input) (opts : List ConsOpt) :
    Option (Except ConsConvError Conv) :=
  match i.node with
  | none => some (Except.error ConsConvError.nilNode)
  | some x =>
    if x.shape.length ≠ 4 ∨ x.shape.length = 0 then
      some (Except.error (ConsConvError.badShape x.shape))
    else
      match NewConv opts with
      | Except.error e => some (Except.error (ConsConvError.fromNew e))
      | Except.ok l =>
        match Conv.Init l [x] with
        | none => none
        | some (_, some e) => some (Except.error (ConsConvError.fromNew e))
        | some (l2, none) => some (Except.ok l2)

/-- Redefine from the top-level sources, verbatim including its dataflow: the
loop variable bound by `if l, err := opt(l); err != nil` shadows the outer
layer, so a successful option's returned layer is discarded and each option is
applied to the original layer; on the first failure the pair returned by the
failing option is returned. -/
def Redefine (l : Conv) : List ConsOpt → Option Conv × Option String
  | [] => (some l, none)
  | opt :: rest =>
    match opt l with
    | (l2, some e) => (l2, some e)
    | (_, none) => Redefine l rest

/-- The closed-form FLOPs formula as the spec states it, for a refinement
comparison with Conv.doComputeFLOPs: n = C*Kh*Kw, flopsPerInstance = n + 1,
instancesPerFilter = (floor((inH - Kh + 2*padH)/strideH) + 1) *
(floor((inW - Kw + 2*padW)/strideW) + 1), total = instancesPerFilter *
flopsPerInstance * F, plus F * instancesPerFilter when an activation is set. -/
def specConvFLOPs (F C Kh Kw padH padW strideH strideW inH inW : Int)
    (hasAct : Bool) : Int :=
  let n := C * Kh * Kw
  let flopsPerInstance := n + 1
  let instancesPerFilter :=
    ((inH - Kh + 2 * padH).fdiv strideH + 1) * ((inW - Kw + 2 * padW).fdiv strideW + 1)
  let flopsPerFilter := instancesPerFilter * flopsPerInstance
  let total := flopsPerFilter * F
  if hasAct then total + F * instancesPerFilter else total

/-- A weight node of shape (6, 3, 5, 5) for the concrete FLOPs scenario. -/
def wNode635 : Node := newTensor 0 0 [6, 3, 5, 5] ("w")

/-- The concrete FLOPs scenario layer without an activation function. -/
def convNoAct : Conv := { convDefaults with w := some wNode635, act := none }

/-- The concrete FLOPs scenario layer with an activation function. -/
def convWithAct : Conv := { convNoAct with act := some Rectify }

/-- A copy of convNoAct differing only in fields the FLOPs estimate must not
read: name, cached flops, computeFLOPs flag, dropout. -/
def convNoActRenamed : Conv :=
  { convNoAct with name := "other", flops := 99, computeFLOPs := true }

/-- An engine whose primitives always succeed, for concrete evaluations. -/
def trivialEngine : Engine :=
  { conv2d := fun a _ _ _ _ _ => Except.ok a
    dropout := fun a _ => Except.ok a }

/-- A concrete 4-D input node on graph 1 with dtype 2. -/
def nodeX : Node := { graph := 1, dtype := 2, shape := [1, 3, 32, 32], name := "x" }

/-- A valid input wrapping nodeX. -/
def inputOK : Input := { node := some nodeX, err := none }

/-- A concrete rank-3 node for the shape-validation counterexamples. -/
def nodeR3 : Node := { graph := 0, dtype := 0, shape := [1, 2, 3], name := "r3" }

/-- A valid input wrapping the rank-3 node. -/
def inputR3 : Input := { node := some nodeR3, err := none }

/-- convDefaults with the size set, as a SetSize option would leave it. -/
def convSized : Conv := { convDefaults with size := [6, 3] }

/-- The weight node Init binds for convSized from nodeX. -/
def wInited : Node := { graph := 1, dtype := 2, shape := [6, 3, 5, 5], name := "_w" }

/-- A layer whose weight node has been bound, as after initialization. -/
def convInited : Conv :=
  { convSized with w := some wInited, initialized := true }

/-- A construction option that succeeds and renames the layer to "a". -/
def optSetNameA : ConsOpt := fun l => (some ({ l with name := "a" }), none)

/-- A construction option that fails, returning a nil layer and an error. -/
def optBoom : ConsOpt := fun _ => (none, some ("boom"))

/-- Helper: the post-initialization forward computation never changes the
weight node or the initialized flag, whatever the engine does. -/
theorem convForward_preserves (E : Engine) (l1 : Conv) (xN : Node) :
    (convForward E l1 xN).1.w = l1.w ∧ (convForward E l1 xN).1.initialized = l1.initialized := by
  unfold convForward
  repeat' split
  all_goals exact ⟨rfl, rfl⟩

/-- Helper: Fwd on an already-initialized layer never panics and keeps the
weight node and the initialized flag, for every input and every engine
behaviour. -/
theorem conv_fwd_stable (E : Engine) (l : Conv) (y : Input)
    (hl : l.initialized = true) :
    ∃ l2 r, Conv.Fwd E l y = some (l2, r) ∧ l2.w = l.w ∧ l2.initialized = true := by
  unfold Conv.Fwd
  cases hy : y.err with
  | some e => exact ⟨l, _, rfl, rfl, hl⟩
  | none =>
    simp only [hl, if_true]
    exact ⟨(convForward E l (y.node.getD default)).1,
           (convForward E l (y.node.getD default)).2, rfl,
           (convForward_preserves E l (y.node.getD default)).1,
           (convForward_preserves E l (y.node.getD default)).2.trans hl⟩

/-- Helper: a list of length at least two starts with two elements. -/
theorem exists_two_cons {α : Type} (xs : List α) (h : 2 ≤ xs.length) :
    ∃ a b t, xs = a :: b :: t := by
  cases xs with
  | nil => simp at h
  | cons a t =>
    cases t with
    | nil => simp at h
    | cons b t2 => exact ⟨a, b, t2, rfl⟩

/-- Helper: when the weight allocation succeeds (size and kernelShape long
enough), Fwd on an uninitialized layer with a valid input does not panic and
returns a layer carrying that weight with the initialized flag set. -/
theorem conv_fwd_uninit_weight (E : Engine) (l : Conv) (x : Input) (wN : Node)
    (hx : x.err = none) (hl : l.initialized = false)
    (hw : convNewWeight l (x.node.getD default) = some wN) :
    ∃ l1 r, Conv.Fwd E l x = some (l1, r) ∧ l1.w = some wN ∧
      l1.initialized = true := by
  have hFwd : Conv.Fwd E l x =
      some (convForward E ({ l with w := some wN, initialized := true })
        (x.node.getD default)) := by
    unfold Conv.Fwd
    rw [hx]
    simp [hl, Conv.Init, hw]
  refine ⟨(convForward E ({ l with w := some wN, initialized := true })
      (x.node.getD default)).1,
    (convForward E ({ l with w := some wN, initialized := true })
      (x.node.getD default)).2, ?_, ?_, ?_⟩
  · rw [hFwd]
  · exact (convForward_preserves E ({ l with w := some wN, initialized := true })
      (x.node.getD default)).1.trans rfl
  · exact (convForward_preserves E ({ l with w := some wN, initialized := true })
      (x.node.getD default)).2.trans rfl

/-- C1: the FLOPs estimate of Conv.doComputeFLOPs, evaluated at the spec's
concrete scenario (weight shape (6,3,5,5), pad (1,1), stride (1,1), input
shape (1,3,32,32)), returns 13680 without and 13860 with an activation
function, while the spec's closed form over input height and width gives
410400 and 415800: the code reads input positions 1 and 2 (channels and
height) where the spec formula reads height and width. -/
theorem conv_doComputeFLOPs_concrete :
    Conv.doComputeFLOPs convNoAct [1, 3, 32, 32] = 13680 ∧
    Conv.doComputeFLOPs convWithAct [1, 3, 32, 32] = 13860 ∧
    specConvFLOPs 6 3 5 5 1 1 1 1 32 32 false = 410400 ∧
    specConvFLOPs 6 3 5 5 1 1 1 1 32 32 true = 415800 ∧
    Conv.doComputeFLOPs convNoAct [1, 3, 32, 32] ≠
      specConvFLOPs 6 3 5 5 1 1 1 1 32 32 false ∧
    Conv.doComputeFLOPs convWithAct [1, 3, 32, 32] ≠
      specConvFLOPs 6 3 5 5 1 1 1 1 32 32 true := by
  refine ⟨by decide, by decide, by decide, by decide, by decide, by decide⟩

/-- C2: at the spec's concrete scenario the activation term the code adds is
F times its own instancesPerFilter, 6 * 30 = 180, not the spec's
F * instancesPerFilter = 6 * 900 = 5400: the two estimates differ by 180. -/
theorem conv_flops_activation_delta_concrete :
    Conv.doComputeFLOPs convWithAct [1, 3, 32, 32] -
      Conv.doComputeFLOPs convNoAct [1, 3, 32, 32] = 180 ∧
    specConvFLOPs 6 3 5 5 1 1 1 1 32 32 true -
      specConvFLOPs 6 3 5 5 1 1 1 1 32 32 false = 5400 ∧
    (180 : Int) ≠ 5400 := by
  refine ⟨by decide, by decide, by decide⟩

/-- C3: the FLOPs estimate is a deterministic function of the weight node,
pad, stride, whether an activation is set, and the input shape: two layers
agreeing on those fields produce the identical integer, whatever their other
fields are. -/
theorem conv_doComputeFLOPs_deterministic (l1 l2 : Conv) (input : List Int)
    (hw : l1.w = l2.w) (hp : l1.pad = l2.pad) (hs : l1.stride = l2.stride)
    (ha : l1.act.isSome = l2.act.isSome) :
    Conv.doComputeFLOPs l1 input = Conv.doComputeFLOPs l2 input := by
  simp only [Conv.doComputeFLOPs, hw, hp, hs, ha]

/-- Witness for C3: two concrete layers differing in name, cached flops and
the computeFLOPs flag yield the same estimate. -/
theorem conv_doComputeFLOPs_deterministic_witness :
    convNoAct.w = convNoActRenamed.w ∧ convNoAct.pad = convNoActRenamed.pad ∧
    convNoAct.stride = convNoActRenamed.stride ∧
    convNoAct.act.isSome = convNoActRenamed.act.isSome ∧
    Conv.doComputeFLOPs convNoAct [1, 3, 32, 32] =
      Conv.doComputeFLOPs convNoActRenamed [1, 3, 32, 32] :=
  ⟨rfl, rfl, rfl, rfl,
   conv_doComputeFLOPs_deterministic convNoAct convNoActRenamed [1, 3, 32, 32]
     rfl rfl rfl rfl⟩

/-- C4: ConsConv fails on a nil node handle; on a handle whose shape has rank
other than 4 it fails with an error carrying the actual shape; and on a
rank-4 handle the rank check passes (neither validation error is returned). -/
theorem consConv_validation (i : Input) (opts : List ConsOpt) :
    (i.node = none → ConsConv i opts = some (Except.error ConsConvError.nilNode)) ∧
    (∀ x : Node, i.node = some x → x.shape.length ≠ 4 →
      ConsConv i opts = some (Except.error (ConsConvError.badShape x.shape))) ∧
    (∀ x : Node, i.node = some x → x.shape.length = 4 →
      (∀ s : List Int,
        ConsConv i opts ≠ some (Except.error (ConsConvError.badShape s))) ∧
      ConsConv i opts ≠ some (Except.error ConsConvError.nilNode)) := by
  refine ⟨?_, ?_, ?_⟩
  · intro h
    unfold ConsConv
    rw [h]
  · intro x hx hlen
    unfold ConsConv
    rw [hx]
    simp only [if_pos (Or.inl hlen)]
  · intro x hx hlen
    have hcond : ¬(x.shape.length ≠ 4 ∨ x.shape.length = 0) := by
      simp [hlen]
    unfold ConsConv
    rw [hx]
    simp only [if_neg hcond]
    cases h : NewConv opts with
    | error e => simp [h]
    | ok l =>
      cases h2 : Conv.Init l [x] with
      | none => simp [h, h2]
      | some p =>
        cases p with
        | mk l2 oe =>
          cases oe with
          | none => simp [h, h2]
          | some e2 => simp [h, h2]

/-- Witness for C4: a nil handle is rejected, and a rank-3 shape is rejected
with that shape in the error. -/
theorem consConv_validation_witness :
    ConsConv (Input.mk none none) [] = some (Except.error ConsConvError.nilNode) ∧
    ConsConv inputR3 [] = some (Except.error (ConsConvError.badShape [1, 2, 3])) :=
  ⟨(consConv_validation (Input.mk none none) []).1 rfl,
   (consConv_validation inputR3 []).2.1 nodeR3 rfl (by decide)⟩

/-- Counterexample for C5: on the layer NewConv builds (uninitialized, size
never set, so empty) the first Fwd call with a valid 4-D input does not
initialize the layer — the lazy Init panics with index-out-of-range at
l.size[0], modelled as the None result. -/
theorem conv_fwd_default_size_panics :
    Conv.Fwd trivialEngine convDefaults inputOK = none ∧
    convDefaults.initialized = false ∧ inputOK.err = none ∧
    convDefaults.size = [] :=
  ⟨rfl, rfl, rfl, rfl⟩

/-- C5 (amended): for an uninitialized layer whose size and kernelShape each
hold at least two elements, the first Fwd call with a valid input does not
panic, sets the initialized flag and binds the weight node to the first
input's graph and dtype; a subsequent Fwd call, under any engine and input,
finds the flag set and returns the very same weight node. -/
theorem conv_fwd_initializes_once_guarded (E E2 : Engine) (l : Conv) (x y : Input)
    (hx : x.err = none) (hl : l.initialized = false)
    (hs : 2 ≤ l.size.length) (hk : 2 ≤ l.kernelShape.length) :
    ∃ wNew l1 r, convNewWeight l (x.node.getD default) = some wNew ∧
      Conv.Fwd E l x = some (l1, r) ∧
      l1.initialized = true ∧ l1.w = some wNew ∧
      wNew.graph = (x.node.getD default).graph ∧
      wNew.dtype = (x.node.getD default).dtype ∧
      (∃ l2 r2, Conv.Fwd E2 l1 y = some (l2, r2) ∧
        l2.w = some wNew ∧ l2.initialized = true) := by
  obtain ⟨s0, s1, sr, hsize⟩ := exists_two_cons l.size hs
  obtain ⟨k0, k1, kr, hkern⟩ := exists_two_cons l.kernelShape hk
  have hw0 : convNewWeight l (x.node.getD default) =
      some (newTensor (x.node.getD default).graph (x.node.getD default).dtype
        [s0, s1, k0, k1] (l.name ++ "_w")) := by
    unfold convNewWeight
    rw [hsize, hkern]
  obtain ⟨l1, r, hFwd, hw1, hinit1⟩ := conv_fwd_uninit_weight E l x _ hx hl hw0
  obtain ⟨l2, r2, hFwd2, hw2, hinit2⟩ := conv_fwd_stable E2 l1 y hinit1
  exact ⟨_, l1, r, hw0, hFwd, hinit1, hw1, rfl, rfl,
    ⟨l2, r2, hFwd2, hw2.trans hw1, hinit2⟩⟩

/-- Witness for C5 (amended): a concrete uninitialized layer with size set,
the trivial engine and a 4-D input. -/
theorem conv_fwd_initializes_once_guarded_witness :
    inputOK.err = none ∧ convSized.initialized = false ∧
    2 ≤ convSized.size.length ∧ 2 ≤ convSized.kernelShape.length ∧
    (∃ wNew l1 r, convNewWeight convSized (inputOK.node.getD default) = some wNew ∧
      Conv.Fwd trivialEngine convSized inputOK = some (l1, r) ∧
      l1.initialized = true ∧ l1.w = some wNew ∧
      wNew.graph = (inputOK.node.getD default).graph ∧
      wNew.dtype = (inputOK.node.getD default).dtype ∧
      (∃ l2 r2, Conv.Fwd trivialEngine l1 inputOK = some (l2, r2) ∧
        l2.w = some wNew ∧ l2.initialized = true)) :=
  ⟨rfl, rfl, by decide, by decide,
   conv_fwd_initializes_once_guarded trivialEngine trivialEngine convSized
     inputOK inputOK rfl rfl (by decide) (by decide)⟩

/-- C6: Redefine with an empty option list returns the original layer and a
nil error. -/
theorem redefine_empty_identity (l : Conv) : Redefine l [] = (some l, none) := rfl

/-- C7: evaluated on a succeeding rename option followed by a failing option,
Redefine returns the failing option's returned pair (nil layer, error), not
the renamed layer; and even with the succeeding option alone it returns the
original unrenamed layer, because the loop variable shadows the outer one. -/
theorem redefine_first_failure_eval :
    Redefine convDefaults [optSetNameA, optBoom] = (none, some ("boom")) ∧
    Redefine convDefaults [optSetNameA] = (some convDefaults, none) ∧
    convDefaults.name ≠ "a" := by
  refine ⟨rfl, rfl, by decide⟩

/-- C8: NewConv with no options yields exactly the documented defaults:
Rectify activation, kernel (5,5), pad (1,1), stride (1,1), dilation (1,1). -/
theorem newConv_default_config :
    NewConv [] = Except.ok convDefaults ∧
    convDefaults.act = some Rectify ∧
    convDefaults.kernelShape = [5, 5] ∧
    convDefaults.pad = [1, 1] ∧
    convDefaults.stride = [1, 1] ∧
    convDefaults.dilation = [1, 1] :=
  ⟨rfl, rfl, rfl, rfl, rfl, rfl⟩

/-- Counterexample for C9: at the NewConv default (size empty) Conv.Init does
not return a nil error and does not install a weight — the Go code panics
with index-out-of-range at l.size[0], modelled as the None result. -/
theorem conv_init_default_size_panics :
    Conv.Init convDefaults [nodeX] = none ∧ convDefaults.size = [] :=
  ⟨rfl, rfl⟩

/-- C9 (amended): on layers whose size and kernelShape each hold at least two
elements, Conv.Init returns a nil error, depends only on the first node
argument, and unconditionally installs a fresh weight node and sets the
initialized flag — also on a layer that is already initialized; on shorter
slices (such as the NewConv default empty size) it panics instead. -/
theorem conv_init_nonpanic_unconditional (l : Conv) (x : Node) (rest : List Node)
    (hs : 2 ≤ l.size.length) (hk : 2 ≤ l.kernelShape.length) :
    ∃ wNew, convNewWeight l x = some wNew ∧
      Conv.Init l (x :: rest) =
        some ({ l with w := some wNew, initialized := true }, none) ∧
      Conv.Init l (x :: rest) = Conv.Init l [x] := by
  obtain ⟨s0, s1, sr, hsize⟩ := exists_two_cons l.size hs
  obtain ⟨k0, k1, kr, hkern⟩ := exists_two_cons l.kernelShape hk
  have hw0 : convNewWeight l x =
      some (newTensor x.graph x.dtype [s0, s1, k0, k1] (l.name ++ "_w")) := by
    unfold convNewWeight
    rw [hsize, hkern]
  refine ⟨_, hw0, ?_, rfl⟩
  simp only [Conv.Init, hw0]

/-- Witness for C9 (amended): a concrete layer with two-element size and
kernelShape, initialized from a node list with a spare element. -/
theorem conv_init_nonpanic_unconditional_witness :
    2 ≤ convSized.size.length ∧ 2 ≤ convSized.kernelShape.length ∧
    (∃ wNew, convNewWeight convSized nodeX = some wNew ∧
      Conv.Init convSized (nodeX :: [nodeX]) =
        some ({ convSized with w := some wNew, initialized := true }, none) ∧
      Conv.Init convSized (nodeX :: [nodeX]) = Conv.Init convSized [nodeX]) :=
  ⟨by decide, by decide,
   conv_init_nonpanic_unconditional convSized nodeX [nodeX] (by decide) (by decide)⟩

/-- C10: Conv.Shape dereferences the weight node: with a bound weight it
returns that weight's shape, and with a nil weight — the state of every
never-initialized layer, such as the NewConv result — the dereference has no
value (the Go code faults). -/
theorem conv_shape_weight_deref (l l0 : Conv) (n : Node)
    (h : l.w = some n) (h0 : l0.w = none) :
    Conv.Shape l = some n.shape ∧ Conv.Shape l0 = none ∧ convDefaults.w = none := by
  refine ⟨?_, ?_, rfl⟩
  · simp [Conv.Shape, h]
  · simp [Conv.Shape, h0]

/-- Witness for C10: a concrete initialized layer and the default layer. -/
theorem conv_shape_weight_deref_witness :
    convInited.w = some wInited ∧ convDefaults.w = none ∧
    (Conv.Shape convInited = some wInited.shape ∧
     Conv.Shape convDefaults = none ∧ convDefaults.w = none) :=
  ⟨rfl, rfl,
   conv_shape_weight_deref convInited convDefaults wInited rfl rfl⟩
